import Mathlib

/-!
Verification development for the `devicegen` repository
(`device_generator.py`, `example.py`).

The Python source is shallowly embedded: machine integers are `Nat`
with explicit `% 2^32` where 32-bit overflow matters, fallible code
returns `Except String`, the per-platform mutable class attributes are
threaded as an explicit `GenState`, and the parsed JSON catalog file is
a `CatalogJson` value (JSON objects preserve insertion order in
`json.load`, so dicts are ordered association lists).
-/

namespace DeviceGen

/-! ## SHA-1 (`hashlib.sha1`), over byte lists, words as `Nat % 2^32` -/

/-- `2^32`, the word modulus of SHA-1. -/
def M32 : Nat := 4294967296

/-- 32-bit left rotation of `x` (assuming `x < 2^32`) by `n` bits. -/
def rotl (n x : Nat) : Nat := (x <<< n ||| x >>> (32 - n)) % M32

/-- Big-endian byte representation of `v`, fixed width `k` bytes. -/
def beBytes : Nat → Nat → List Nat
  | 0, _ => []
  | k + 1, v => beBytes k (v / 256) ++ [v % 256]

/-- SHA-1 / MD padding: append `0x80`, zeros to 56 mod 64, then the
bit length as 8 big-endian bytes. -/
def sha1Pad (msg : List Nat) : List Nat :=
  msg ++ 128 :: List.replicate ((119 - msg.length % 64) % 64) 0
      ++ beBytes 8 (msg.length * 8)

/-- Group a byte list into big-endian 32-bit words (4 bytes each). -/
def toWords : List Nat → List Nat
  | a :: b :: c :: d :: rest =>
      (((a * 256 + b) * 256 + c) * 256 + d) :: toWords rest
  | _ => []

/-- Message-schedule extension, keeping already-produced words in
reverse order (most recent first): `w[t] = rotl1 (w[t-3] ^^^ w[t-8]
^^^ w[t-14] ^^^ w[t-16])`. -/
def extendWords : Nat → List Nat → List Nat
  | 0, r => r
  | k + 1, r =>
      let t := rotl 1 (((r.getD 2 0 ^^^ r.getD 7 0) ^^^ r.getD 13 0) ^^^ r.getD 15 0)
      extendWords k (t :: r)

/-- The five-word SHA-1 state. -/
abbrev Sha1State := Nat × Nat × Nat × Nat × Nat

/-- One SHA-1 compression round; `i` is the round index (0–79), `w`
the schedule word. -/
def sha1Round (i w : Nat) : Sha1State → Sha1State
  | (a, b, c, d, e) =>
    let notb := b ^^^ (M32 - 1)
    let f := if i < 20 then (b &&& c) ||| (notb &&& d)
      else if i < 40 then (b ^^^ c) ^^^ d
      else if i < 60 then ((b &&& c) ||| (b &&& d)) ||| (c &&& d)
      else (b ^^^ c) ^^^ d
    let k := if i < 20 then 0x5A827999
      else if i < 40 then 0x6ED9EBA1
      else if i < 60 then 0x8F1BBCDC
      else 0xCA62C1D6
    let temp := (rotl 5 a + f + e + k + w) % M32
    (temp, a, rotl 30 b, c, d)

/-- Process one 64-byte block into the running hash state. -/
def sha1Block (h : Sha1State) (block : List Nat) : Sha1State :=
  let w80 := (extendWords 64 (toWords block).reverse).reverse
  let r := ((List.range 80).zip w80).foldl (fun st iw => sha1Round iw.1 iw.2 st) h
  ((h.1 + r.1) % M32, (h.2.1 + r.2.1) % M32, (h.2.2.1 + r.2.2.1) % M32,
   (h.2.2.2.1 + r.2.2.2.1) % M32, (h.2.2.2.2 + r.2.2.2.2) % M32)

/-- Split a byte list into 64-byte chunks; `fuel` is an upper bound on
the number of chunks (structural recursion so the kernel can evaluate;
`chunks64_eq` below recovers the direct recurrence). -/
def chunksAux : Nat → List Nat → List (List Nat)
  | 0, _ => []
  | _, [] => []
  | fuel + 1, a :: l => (a :: l).take 64 :: chunksAux fuel ((a :: l).drop 64)

/-- Split a byte list into 64-byte chunks. -/
def chunks64 (l : List Nat) : List (List Nat) := chunksAux l.length l

/-- The SHA-1 initial state. -/
def sha1Init : Sha1State := (0x67452301, 0xEFCDAB89, 0x98BADCFE, 0x10325476, 0xC3D2E1F0)

/-- SHA-1 digest of a byte list, as the 160-bit big-endian unsigned
integer formed by the 20 digest bytes. -/
def sha1Nat (msg : List Nat) : Nat :=
  let h := (chunks64 (sha1Pad msg)).foldl sha1Block sha1Init
  (((h.1 * M32 + h.2.1) * M32 + h.2.2.1) * M32 + h.2.2.2.1) * M32 + h.2.2.2.2

/-! ## `.hexdigest()` and Python `int(-, 16)` -/

/-- Lower-case hex character for a nibble. -/
def hexChar (n : Nat) : Char :=
  if n < 10 then Char.ofNat (48 + n) else Char.ofNat (87 + n)

/-- Fixed-width hex characters of `v`, least-significant nibble first. -/
def toHexLE : Nat → Nat → List Char
  | 0, _ => []
  | w + 1, v => hexChar (v % 16) :: toHexLE w (v / 16)

/-- `hashlib.sha1(msg).hexdigest()`: the 20 digest bytes as 40
lower-case hex characters, most significant first. -/
def sha1Hexdigest (msg : List Nat) : String :=
  ⟨(toHexLE 40 (sha1Nat msg)).reverse⟩

/-- Numeric value of one hex character (lower-case letters). -/
def hexVal (c : Char) : Nat :=
  if 97 ≤ c.toNat then c.toNat - 87 else c.toNat - 48

/-- Python `int(s, 16)` on a lower-case hex string (as a char list). -/
def intOfHexChars (cs : List Char) : Nat :=
  cs.foldl (fun a c => a * 16 + hexVal c) 0

/-! ## Identifier handling and `_str_to_hash_id`

Python values reaching `unique_id`: `None` is `Option.none`; a present
value is a string or (per the spec example shapes) some other object
with a `str()` form, modelled by `PyObj`. -/

/-- A Python value passed as `unique_id`: a `str`, or a non-string
(here: an `int`) that `str()` renders in decimal. -/
inductive PyObj where
  | pystr : String → PyObj
  | pyint : Int → PyObj
deriving Repr, DecidableEq

/-- Python `str()` of a `PyObj` (identity on strings, decimal
rendering of ints). -/
def pyStr : PyObj → String
  | .pystr s => s
  | .pyint n => toString n

/-- UTF-8 bytes of one Unicode code point (Python `str.encode("utf-8")`,
per character). -/
def utf8Bytes (c : Char) : List Nat :=
  let n := c.toNat
  if n < 128 then [n]
  else if n < 2048 then [192 + n / 64, 128 + n % 64]
  else if n < 65536 then [224 + n / 4096, 128 + n / 64 % 64, 128 + n % 64]
  else [240 + n / 262144, 128 + n / 4096 % 64, 128 + n / 64 % 64, 128 + n % 64]

/-- `s.encode("utf-8")` as a byte list. -/
def strUtf8 (s : String) : List Nat := (s.data.map utf8Bytes).flatten

/-- `BaseDeviceGenerator._str_to_hash_id`.  A `None` identifier uses 32
fresh random bytes (`os.urandom(32)`), passed here explicitly as
`entropy`; a present identifier is stringified if not a `str` and
UTF-8-encoded.  The result is `int(sha1(byte_id).hexdigest(), 16) %
10**12`. -/
def str_to_hash_id (uid : Option PyObj) (entropy : List Nat) : Nat :=
  let byte_id := match uid with
    | none => entropy
    | some u => strUtf8 (pyStr u)
  intOfHexChars (sha1Hexdigest byte_id).data % (10 ^ 12)

/-! ## Data model: `DeviceInfo` and the catalog JSON -/

/-- Python `str.strip()`: remove whitespace from both ends (modelled
over the character list so that it evaluates in the kernel). -/
def pyStrip (s : String) : String :=
  ⟨((s.data.dropWhile Char.isWhitespace).reverse.dropWhile Char.isWhitespace).reverse⟩

/-- The `DeviceInfo` dataclass: the eight string fields of a generated
fingerprint record. -/
structure DeviceInfo where
  device_model : String
  system_version : String
  lang_code : String
  system_lang_code : String
  app_version : String
  lang_pack : String
  api_id : String
  api_hash : String
deriving Repr, DecidableEq, Inhabited

/-- A raw JSON entry of the `lang_packs` list: a string, or any
non-string JSON value (number, null, list, object).  The load filter
`lp and isinstance(lp, str)` keeps exactly the non-empty strings. -/
inductive JEntry where
  | jstr : String → JEntry
  | jother : JEntry
deriving Repr, DecidableEq

/-- The `device_models` JSON value: a flat list of model names
(Windows/Linux/macOS/Android) or, for iOS, an object mapping a model
identifier to its list of suffixes (insertion-ordered, as `json.load`
preserves object order). -/
inductive ModelsData where
  | flat : List String → ModelsData
  | nested : List (String × List String) → ModelsData
deriving Repr, DecidableEq

/-- The `system_versions` JSON value: a flat list of version strings
or, for iOS, an object major ↦ (minor ↦ patch list). -/
inductive VersionsData where
  | flat : List String → VersionsData
  | nested : List (String × List (String × List String)) → VersionsData
deriving Repr, DecidableEq

/-- The parsed per-platform JSON document (`json.load` result); `none`
for an absent key, so `data.get(key, default)` is `Option.getD`. -/
structure CatalogJson where
  device_models : Option ModelsData := none
  system_versions : Option VersionsData := none
  lang_codes : Option (List String) := none
  system_lang_codes : Option (List String) := none
  app_versions : Option (List String) := none
  lang_packs : Option (List JEntry) := none
  api_id : Option (List String) := none
  api_hash : Option (List String) := none
deriving Repr, DecidableEq

/-- The per-platform class attributes populated by `load_data` (the
seven candidate pools plus the raw model/version data). -/
structure Catalog where
  device_models : ModelsData := .flat []
  system_versions : VersionsData := .flat []
  lang_codes : List String := []
  system_lang_codes : List String := []
  app_versions : List String := []
  lang_packs : List String := []
  api_id : List String := []
  api_hash : List String := []
deriving Repr, DecidableEq

/-- `BaseDeviceGenerator.load_data`, after the file has been read and
parsed into `j` (the claims quantify over catalog data, so the
filesystem read is kept outside the embedding): each field from
`data.get(...)` with its default, then `lang_packs` filtered to
non-empty strings with fallback `["en-US"]`. -/
def load_data (j : CatalogJson) : Catalog :=
  let lang_codes := j.lang_codes.getD []
  let lang_packs0 := (j.lang_packs.getD [.jstr "default"]).filterMap
    (fun e => match e with
      | .jstr s => if s = "" then none else some s
      | .jother => none)
  { device_models := j.device_models.getD (.flat [])
    system_versions := j.system_versions.getD (.flat [])
    lang_codes := lang_codes
    system_lang_codes := j.system_lang_codes.getD lang_codes
    app_versions := j.app_versions.getD []
    lang_packs := if lang_packs0 = [] then ["en-US"] else lang_packs0
    api_id := j.api_id.getD [""]
    api_hash := j.api_hash.getD [""] }

/-! ## `_generate`: expansion of the catalog into `device_list` -/

/-- Iterating a `device_models` JSON value with `for model in ...`:
a list yields its elements, a dict yields its keys. -/
def ModelsData.iterKeys : ModelsData → List String
  | .flat l => l
  | .nested m => m.map Prod.fst

/-- Iterating a `system_versions` JSON value with `for version in ...`. -/
def VersionsData.iterKeys : VersionsData → List String
  | .flat l => l
  | .nested m => m.map Prod.fst

/-- The `DeviceInfo` literal appended inside the `_generate` loops:
model and version from the loop, the other six fields placeholder
values `xs[0] if xs else default` (the `lang_pack` default differs per
branch: `"macos"` for macOS, `"default"` otherwise). -/
def placeholderInfo (c : Catalog) (langPackDefault model version : String) : DeviceInfo :=
  { device_model := model
    system_version := version
    lang_code := c.lang_codes.headD "en"
    system_lang_code := c.system_lang_codes.headD "en-US"
    app_version := c.app_versions.headD "1.0.0"
    lang_pack := c.lang_packs.headD langPackDefault
    api_id := c.api_id.headD ""
    api_hash := c.api_hash.headD ""
    }

/-- The version string built for one iOS (major, (minor, patches))
pair: `"{major}.{minor}"` when the patch list is empty, else
`"{major}.{minor}.{patches[0]}"`. -/
def iosVersion (major : String) (mp : String × List String) : String :=
  match mp.2 with
  | [] => major ++ "." ++ mp.1
  | p :: _ => major ++ "." ++ mp.1 ++ "." ++ p

/-- The body of the iOS suffix loop for one (model, suffix) pair: the
model name is `f"{base_model}{suffix}".strip()` with `base_model =
"iPhone {id}"` (the redundant special case rendering `"SE"` as
`"iPhone SE"` kept as in the source), and the two inner version loops
call `.items()` on `system_versions` — an `AttributeError`
(`Except.error`) if that value is a flat list, reached only when a
(model, suffix) pair exists. -/
def iosSuffixRow (c : Catalog) (mi : String × List String) (suffix : String) :
    Except String (List DeviceInfo) :=
  match c.system_versions with
  | .flat _ => .error "AttributeError: list object has no attribute items"
  | .nested vers =>
      .ok (vers.flatMap (fun mm => mm.2.map (fun mp =>
        placeholderInfo c "default"
          (pyStrip ((if mi.1 ≠ "SE" then "iPhone " ++ mi.1 else "iPhone SE") ++ suffix))
          (iosVersion mm.1 mp))))

/-- The body of the iOS model loop for one `device_models.items()`
entry: the suffix loop over `mi.2`. -/
def iosModelGroup (c : Catalog) (mi : String × List String) :
    Except String (List DeviceInfo) := do
  let rows ← mi.2.mapM (iosSuffixRow c mi)
  pure rows.flatten

/-- The loop body of `_generate`, producing the platform's
`device_list` from the loaded catalog attributes.  iOS calls
`.items()` on `device_models` (an `AttributeError` if it is a flat
list, modelled as `Except.error`) and runs the nested model/suffix/
major/minor loops; the other platforms iterate the two values directly
and take the cross product, macOS differing from the rest only in the
placeholder `lang_pack` default. -/
def buildDeviceList (platform : String) (c : Catalog) : Except String (List DeviceInfo) :=
  if platform = "iOS" then
    match c.device_models with
    | .flat _ => .error "AttributeError: list object has no attribute items"
    | .nested models => do
        let groups ← models.mapM (iosModelGroup c)
        pure groups.flatten
  else if platform = "macOS" then
    .ok (c.device_models.iterKeys.flatMap (fun model =>
      c.system_versions.iterKeys.map (fun version =>
        placeholderInfo c "macos" model version)))
  else
    .ok (c.device_models.iterKeys.flatMap (fun model =>
      c.system_versions.iterKeys.map (fun version =>
        placeholderInfo c "default" model version)))

/-- The mutable per-platform class state: the cached `device_list`
plus the loaded catalog attributes, threaded explicitly. -/
structure GenState where
  device_list : List DeviceInfo := []
  catalog : Catalog := {}
deriving Repr, DecidableEq

/-- The state of a platform class before any request: all class
attributes are empty lists. -/
def initState : GenState := {}

/-- `BaseDeviceGenerator._generate`: when `device_list` is empty
(`if not cls.device_list`), load the catalog and rebuild the list;
otherwise leave the state untouched.  The returned `Bool` records
whether the data source was read. -/
def generate (platform : String) (j : CatalogJson) (s : GenState) :
    Except String (GenState × Bool) :=
  if s.device_list = [] then
    match buildDeviceList platform (load_data j) with
    | .ok dl => .ok ({ device_list := dl, catalog := load_data j }, true)
    | .error e => .error e
  else .ok (s, false)

/-- `BaseDeviceGenerator._hash_to_value`: raise `ValueError` on an
empty candidate list, else return `values[hash_id % len(values)]`. -/
def hash_to_value {α : Type} (platform : String) (hash_id : Nat) :
    List α → Except String α
  | [] => .error ("No values available for " ++ platform)
  | v :: vs => .ok ((v :: vs).get ⟨hash_id % (vs.length + 1), Nat.mod_lt _ (Nat.succ_pos _)⟩)

/-- `BaseDeviceGenerator._random_device`: run `_generate`, then select
the device pair and the six remaining fields with hash offsets 0–6. -/
def random_device_info (platform : String) (j : CatalogJson) (s : GenState)
    (hash_id : Nat) : Except String (DeviceInfo × GenState) := do
  let s1 := (← generate platform j s).1
  let device ← hash_to_value platform hash_id s1.device_list
  let lang_code ← hash_to_value platform (hash_id + 1) s1.catalog.lang_codes
  let system_lang_code ← hash_to_value platform (hash_id + 2) s1.catalog.system_lang_codes
  let app_version ← hash_to_value platform (hash_id + 3) s1.catalog.app_versions
  let lang_pack ← hash_to_value platform (hash_id + 4) s1.catalog.lang_packs
  let api_id ← hash_to_value platform (hash_id + 5) s1.catalog.api_id
  let api_hash ← hash_to_value platform (hash_id + 6) s1.catalog.api_hash
  pure ({ device_model := device.device_model
          system_version := device.system_version
          lang_code := lang_code
          system_lang_code := system_lang_code
          app_version := app_version
          lang_pack := lang_pack
          api_id := api_id
          api_hash := api_hash }, s1)

/-! ## Serialization: `json.dumps(info.to_dict(), ensure_ascii=False)` -/

/-- Four fixed-width hex characters (for `\\uXXXX` escapes). -/
def hex4 (n : Nat) : String := ⟨(toHexLE 4 n).reverse⟩

/-- `json.dumps` escaping of one character with `ensure_ascii=False`:
quote, backslash and control characters are escaped, everything else
(non-ASCII included) is emitted literally. -/
def jsonEscapeChar (c : Char) : String :=
  if c = '"' then "\\\""
  else if c = '\\' then "\\\\"
  else if c = '\n' then "\\n"
  else if c = '\t' then "\\t"
  else if c = '\r' then "\\r"
  else if c.toNat = 8 then "\\b"
  else if c.toNat = 12 then "\\f"
  else if c.toNat < 32 then "\\u" ++ hex4 c.toNat
  else String.singleton c

/-- A JSON string literal for `s`. -/
def jsonStr (s : String) : String :=
  "\"" ++ String.join (s.data.map jsonEscapeChar) ++ "\""

/-- One `"key": value` member. -/
def jsonMember (key value : String) : String := jsonStr key ++ ": " ++ jsonStr value

/-- `json.dumps(self.to_dict(), ensure_ascii=False)`: the eight fields
in `to_dict` order with the default `", "` / `": "` separators. -/
def to_dict_dumps (d : DeviceInfo) : String :=
  "\x7b" ++ jsonMember "device_model" d.device_model
  ++ ", " ++ jsonMember "system_version" d.system_version
  ++ ", " ++ jsonMember "lang_code" d.lang_code
  ++ ", " ++ jsonMember "system_lang_code" d.system_lang_code
  ++ ", " ++ jsonMember "app_version" d.app_version
  ++ ", " ++ jsonMember "lang_pack" d.lang_pack
  ++ ", " ++ jsonMember "api_id" d.api_id
  ++ ", " ++ jsonMember "api_hash" d.api_hash
  ++ "\x7d"

/-- `BaseDeviceGenerator.random_device`: hash the identifier, generate
the record, serialize it. -/
def random_device (platform : String) (j : CatalogJson) (s : GenState)
    (uid : Option PyObj) (entropy : List Nat) : Except String (String × GenState) := do
  let hash_id := str_to_hash_id uid entropy
  let r ← random_device_info platform j s hash_id
  pure (to_dict_dumps r.1, r.2)

/-- The keys of the `platform_classes` dispatch table. -/
def platformNames : List String := ["Windows", "Linux", "macOS", "Android", "iOS"]

/-- Module-level `get_random_device`: dispatch on the platform name
(`ValueError` for an unknown one) and call the class's
`random_device`.  `j` is the platform's parsed data file and `s` the
platform class's current state. -/
def get_random_device (platform : String) (j : CatalogJson) (s : GenState)
    (uid : Option PyObj) (entropy : List Nat) : Except String (String × GenState) :=
  if platform ∈ platformNames then random_device platform j s uid entropy
  else .error ("Unsupported platform: " ++ platform)

/-! ## Supporting lemmas -/

instance instDecEqExcept {ε α : Type} [DecidableEq ε] [DecidableEq α] :
    DecidableEq (Except ε α) := fun x y =>
  match x, y with
  | .ok a, .ok b =>
      if h : a = b then .isTrue (h ▸ rfl) else .isFalse (fun hc => h (Except.ok.inj hc))
  | .error a, .error b =>
      if h : a = b then .isTrue (h ▸ rfl) else .isFalse (fun hc => h (Except.error.inj hc))
  | .ok _, .error _ => .isFalse (fun hc => Except.noConfusion hc)
  | .error _, .ok _ => .isFalse (fun hc => Except.noConfusion hc)

theorem except_bind_ok {ε α β : Type} {e : Except ε α} {f : α → Except ε β} {b : β}
    (h : e >>= f = .ok b) : ∃ a, e = .ok a ∧ f a = .ok b := by
  cases e with
  | error err => exact absurd h (by simp [Bind.bind, Except.bind])
  | ok a => exact ⟨a, rfl, by simpa [Bind.bind, Except.bind] using h⟩

theorem hash_to_value_ok {α : Type} {platform : String} {hash_id : Nat}
    {vs : List α} (hvs : vs ≠ []) :
    hash_to_value platform hash_id vs =
      .ok (vs.get ⟨hash_id % vs.length, Nat.mod_lt _ (List.length_pos.mpr hvs)⟩) := by
  cases vs with
  | nil => exact absurd rfl hvs
  | cons v t => rfl

theorem hash_to_value_mem {α : Type} {platform : String} {hash_id : Nat}
    {vs : List α} {x : α} (h : hash_to_value platform hash_id vs = .ok x) :
    x ∈ vs := by
  cases vs with
  | nil => exact absurd h (by simp [hash_to_value])
  | cons v t =>
      simp only [hash_to_value, Except.ok.injEq] at h
      exact h ▸ List.get_mem _ _ _

theorem hash_to_value_ne_nil {α : Type} {platform : String} {hash_id : Nat}
    {vs : List α} {x : α} (h : hash_to_value platform hash_id vs = .ok x) :
    vs ≠ [] := by
  intro hnil
  subst hnil
  exact absurd h (by simp [hash_to_value])

/-- The `lang_packs` pool after `load_data` is never empty and holds
only non-empty strings. -/
theorem load_data_lang_packs (j : CatalogJson) :
    (load_data j).lang_packs ≠ [] ∧ ∀ s ∈ (load_data j).lang_packs, s ≠ "" := by
  unfold load_data
  set l0 := (j.lang_packs.getD [.jstr "default"]).filterMap
    (fun e => match e with
      | .jstr s => if s = "" then none else some s
      | .jother => none) with hl0
  by_cases hc : l0 = []
  · simp [hc]
  · refine ⟨by simp [hc], ?_⟩
    intro s hs
    simp only [hc, if_neg hc] at hs
    rw [hl0] at hs
    obtain ⟨e, _, he⟩ := List.mem_filterMap.mp hs
    cases e with
    | jstr t =>
        by_cases ht : t = "" <;> simp [ht] at he
        exact he ▸ ht
    | jother => simp at he

/-- `_generate` on a state with a cached (non-empty) `device_list` is
a no-op that does not read the data source. -/
theorem generate_cached {platform : String} {j : CatalogJson} {s : GenState}
    (h : s.device_list ≠ []) : generate platform j s = .ok (s, false) := by
  unfold generate
  rw [if_neg h]

/-- Success of `_generate` either populated the cache from the data
source (empty `device_list` on entry) or reused the state untouched. -/
theorem generate_ok {platform : String} {j : CatalogJson} {s s1 : GenState} {flag : Bool}
    (h : generate platform j s = .ok (s1, flag)) :
    (s.device_list = [] ∧ flag = true ∧ s1.catalog = load_data j ∧
      buildDeviceList platform (load_data j) = .ok s1.device_list) ∨
    (s.device_list ≠ [] ∧ flag = false ∧ s1 = s) := by
  unfold generate at h
  by_cases hs : s.device_list = []
  · left
    rw [if_pos hs] at h
    cases hb : buildDeviceList platform (load_data j) with
    | ok dl =>
        rw [hb] at h
        injection h with h'
        injection h' with h1 h2
        subst h1
        exact ⟨hs, h2.symm, rfl, rfl⟩
    | error e =>
        rw [hb] at h
        exact absurd h (by simp)
  · right
    rw [if_neg hs] at h
    injection h with h'
    injection h' with h1 h2
    exact ⟨hs, h2.symm, h1.symm⟩

/-- Elimination principle for a successful `_random_device` call: the
state after `_generate` is the returned state, the device pair comes
from `device_list` at offset 0, and the six scalar fields come from
their pools at offsets 1–6. -/
theorem random_device_info_ok {platform : String} {j : CatalogJson} {s : GenState}
    {hash_id : Nat} {r : DeviceInfo} {s1 : GenState}
    (hok : random_device_info platform j s hash_id = .ok (r, s1)) :
    ∃ (flag : Bool) (dev : DeviceInfo),
      generate platform j s = .ok (s1, flag) ∧
      hash_to_value platform hash_id s1.device_list = .ok dev ∧
      hash_to_value platform (hash_id + 1) s1.catalog.lang_codes = .ok r.lang_code ∧
      hash_to_value platform (hash_id + 2) s1.catalog.system_lang_codes = .ok r.system_lang_code ∧
      hash_to_value platform (hash_id + 3) s1.catalog.app_versions = .ok r.app_version ∧
      hash_to_value platform (hash_id + 4) s1.catalog.lang_packs = .ok r.lang_pack ∧
      hash_to_value platform (hash_id + 5) s1.catalog.api_id = .ok r.api_id ∧
      hash_to_value platform (hash_id + 6) s1.catalog.api_hash = .ok r.api_hash ∧
      r.device_model = dev.device_model ∧ r.system_version = dev.system_version := by
  unfold random_device_info at hok
  obtain ⟨x, hgen, hok⟩ := except_bind_ok hok
  obtain ⟨dev, hdev, hok⟩ := except_bind_ok hok
  obtain ⟨lc, hlc, hok⟩ := except_bind_ok hok
  obtain ⟨slc, hslc, hok⟩ := except_bind_ok hok
  obtain ⟨av, hav, hok⟩ := except_bind_ok hok
  obtain ⟨lp, hlp, hok⟩ := except_bind_ok hok
  obtain ⟨ai, hai, hok⟩ := except_bind_ok hok
  obtain ⟨ah, hah, hok⟩ := except_bind_ok hok
  simp only [pure, Except.pure, Except.ok.injEq, Prod.mk.injEq] at hok
  obtain ⟨hr, hs1⟩ := hok
  subst hr
  subst hs1
  exact ⟨x.2, dev, by rw [← hgen], hdev, hlc, hslc, hav, hlp, hai, hah, rfl, rfl⟩

/-! ### Bounds on the SHA-1 digest -/

theorem mul_add_lt_mul {x X y M : Nat} (hx : x < X) (hy : y < M) :
    x * M + y < X * M := by
  calc x * M + y < x * M + M := by omega
    _ = (x + 1) * M := by ring
    _ ≤ X * M := Nat.mul_le_mul_right M hx

/-- Every component of the state returned by one compression block is
a 32-bit word. -/
theorem sha1Block_lt (h : Sha1State) (b : List Nat) :
    (sha1Block h b).1 < M32 ∧ (sha1Block h b).2.1 < M32 ∧
    (sha1Block h b).2.2.1 < M32 ∧ (sha1Block h b).2.2.2.1 < M32 ∧
    (sha1Block h b).2.2.2.2 < M32 := by
  have hM : 0 < M32 := by norm_num [M32]
  exact ⟨Nat.mod_lt _ hM, Nat.mod_lt _ hM, Nat.mod_lt _ hM, Nat.mod_lt _ hM, Nat.mod_lt _ hM⟩

theorem foldl_sha1Block_lt (blocks : List (List Nat)) (hne : blocks ≠ [])
    (h0 : Sha1State) :
    (blocks.foldl sha1Block h0).1 < M32 ∧ (blocks.foldl sha1Block h0).2.1 < M32 ∧
    (blocks.foldl sha1Block h0).2.2.1 < M32 ∧ (blocks.foldl sha1Block h0).2.2.2.1 < M32 ∧
    (blocks.foldl sha1Block h0).2.2.2.2 < M32 := by
  induction blocks generalizing h0 with
  | nil => exact absurd rfl hne
  | cons b bs ih =>
      cases bs with
      | nil => simpa using sha1Block_lt h0 b
      | cons b2 bs2 => simpa using ih (by simp) (sha1Block h0 b)

theorem chunks64_ne_nil {l : List Nat} (h : l ≠ []) : chunks64 l ≠ [] := by
  cases l with
  | nil => exact absurd rfl h
  | cons a t => simp [chunks64, chunksAux]

/-- The SHA-1 digest integer fits in 160 bits (40 hex characters). -/
theorem sha1Nat_lt (msg : List Nat) : sha1Nat msg < 16 ^ 40 := by
  have hpad : sha1Pad msg ≠ [] := by simp [sha1Pad]
  obtain ⟨h1, h2, h3, h4, h5⟩ :=
    foldl_sha1Block_lt (chunks64 (sha1Pad msg)) (chunks64_ne_nil hpad) sha1Init
  have e : (16 : Nat) ^ 40 = (((M32 * M32) * M32) * M32) * M32 := by norm_num [M32]
  rw [sha1Nat, e]
  exact mul_add_lt_mul (mul_add_lt_mul (mul_add_lt_mul (mul_add_lt_mul h1 h2) h3) h4) h5

/-! ### Hexadecimal round trip: `int(sha1(x).hexdigest(), 16)` -/

theorem hexVal_hexChar {m : Nat} (h : m < 16) : hexVal (hexChar m) = m := by
  interval_cases m <;> decide

theorem intOfHex_toHexLE (w n : Nat) :
    intOfHexChars (toHexLE w n).reverse = n % 16 ^ w := by
  induction w generalizing n with
  | zero => simp [toHexLE, intOfHexChars, Nat.mod_one]
  | succ w ih =>
      have ihn := ih (n / 16)
      unfold intOfHexChars at ihn ⊢
      simp only [toHexLE, List.reverse_cons, List.foldl_append, List.foldl_cons,
        List.foldl_nil]
      rw [ihn, hexVal_hexChar (Nat.mod_lt n (by norm_num)), Nat.pow_succ']
      rw [Nat.mod_mul]
      omega

/-- `int(hexdigest, 16)` recovers exactly the digest integer. -/
theorem intOfHex_sha1Hexdigest (msg : List Nat) :
    intOfHexChars (sha1Hexdigest msg).data = sha1Nat msg := by
  show intOfHexChars (toHexLE 40 (sha1Nat msg)).reverse = sha1Nat msg
  rw [intOfHex_toHexLE, Nat.mod_eq_of_lt (sha1Nat_lt msg)]

/-- `getD` with an in-bounds index is `get`. -/
theorem getD_of_lt {α : Type} (l : List α) (n : Nat) (d : α) (h : n < l.length) :
    l.getD n d = l.get ⟨n, h⟩ := by
  rw [List.getD_eq_getElem?_getD, List.getElem?_eq_getElem h]
  rfl

/-- Successful selection, written with `getD`. -/
theorem hash_to_value_getD {α : Type} {platform : String} {hash_id : Nat}
    {vs : List α} {x : α} (h : hash_to_value platform hash_id vs = .ok x) (d : α) :
    x = vs.getD (hash_id % vs.length) d := by
  have hne := hash_to_value_ne_nil h
  rw [hash_to_value_ok hne] at h
  injection h with h'
  rw [getD_of_lt vs _ d (Nat.mod_lt _ (List.length_pos.mpr hne))]
  exact h'.symm

/-! ## Fixture catalogs (from the spec's testable-property examples) -/

/-- The minimal flat fixture catalog of the spec's end-to-end example:
`device_models=["ModelA","ModelB"]`, `system_versions=["1.0","2.0"]`,
`lang_codes=["en"]`, `app_versions=["1.0.0"]`, `lang_packs=["default"]`,
`api_id=[""]`, `api_hash=[""]`. -/
def fixtureJson : CatalogJson :=
  { device_models := some (.flat ["ModelA", "ModelB"])
    system_versions := some (.flat ["1.0", "2.0"])
    lang_codes := some ["en"]
    app_versions := some ["1.0.0"]
    lang_packs := some [.jstr "default"]
    api_id := some [""]
    api_hash := some [""] }

/-- The iOS fixture catalog of the spec's model-synthesis example:
`device_models = {"SE": [""], "12": [" Pro"]}`,
`system_versions = {"15": {"0": []}}`. -/
def iosFixtureJson : CatalogJson :=
  { device_models := some (.nested [("SE", [""]), ("12", [" Pro"])])
    system_versions := some (.nested [("15", [("0", [])])])
    lang_codes := some ["en"]
    app_versions := some ["1.0.0"]
    lang_packs := some [.jstr "default"]
    api_id := some [""]
    api_hash := some [""] }

/-- A flat catalog in which every candidate of every pool is a
non-empty string. -/
def fullJson : CatalogJson :=
  { device_models := some (.flat ["ModelA", "ModelB"])
    system_versions := some (.flat ["1.0", "2.0"])
    lang_codes := some ["en"]
    system_lang_codes := some ["en-US"]
    app_versions := some ["1.0.0"]
    lang_packs := some [.jstr "default"]
    api_id := some ["12345"]
    api_hash := some ["abcdef"] }

/-- The SHA-1-derived hash of the identifier string `"fixed"`. -/
def fixedHash : Nat := str_to_hash_id (some (.pystr "fixed")) []

/-- The record and state produced by a fresh `_random_device` call on
`fullJson` with base hash 7 (a concrete successful run). -/
def fullRun : DeviceInfo × GenState :=
  match random_device_info "Windows" fullJson initState 7 with
  | .ok p => p
  | .error _ => (default, {})

/-! ## Claims -/

/-- C9: for every present identifier, `_str_to_hash_id` equals the
SHA-1 digest of the identifier's UTF-8 bytes interpreted as an
unsigned integer and reduced modulo `10^12` (so the result lies in
`[0, 10^12)`), and a non-string input hashes identically to its
string form. -/
theorem C9_hash_contract (u : PyObj) (e : List Nat) (n : Int) :
    str_to_hash_id (some u) e = sha1Nat (strUtf8 (pyStr u)) % 10 ^ 12 ∧
    str_to_hash_id (some u) e < 10 ^ 12 ∧
    str_to_hash_id (some (.pyint n)) e = str_to_hash_id (some (.pystr (toString n))) e := by
  refine ⟨?_, ?_, rfl⟩
  · show intOfHexChars (sha1Hexdigest (strUtf8 (pyStr u))).data % 10 ^ 12 = _
    rw [intOfHex_sha1Hexdigest]
  · show intOfHexChars (sha1Hexdigest (strUtf8 (pyStr u))).data % 10 ^ 12 < 10 ^ 12
    exact Nat.mod_lt _ (by norm_num)

/-- C5: selection indexes a non-empty candidate list at
`(baseHash + fieldOffset) % len`, the offset added before the modulo,
and a successful `_random_device` call uses the fixed sequential
offsets 0 (device pair), 1 (lang_code), 2 (system_lang_code),
3 (app_version), 4 (lang_pack), 5 (api_id), 6 (api_hash). -/
theorem C5_selection_offsets {platform : String} {j : CatalogJson} {s : GenState}
    {h : Nat} {r : DeviceInfo} {s1 : GenState}
    (hok : random_device_info platform j s h = .ok (r, s1)) :
    (∀ (α : Type) (base off : Nat) (vs : List α) (d : α), vs ≠ [] →
       hash_to_value platform (base + off) vs = .ok (vs.getD ((base + off) % vs.length) d)) ∧
    r.device_model = (s1.device_list.getD (h % s1.device_list.length) default).device_model ∧
    r.system_version =
      (s1.device_list.getD (h % s1.device_list.length) default).system_version ∧
    r.lang_code = s1.catalog.lang_codes.getD ((h + 1) % s1.catalog.lang_codes.length) "" ∧
    r.system_lang_code =
      s1.catalog.system_lang_codes.getD ((h + 2) % s1.catalog.system_lang_codes.length) "" ∧
    r.app_version =
      s1.catalog.app_versions.getD ((h + 3) % s1.catalog.app_versions.length) "" ∧
    r.lang_pack = s1.catalog.lang_packs.getD ((h + 4) % s1.catalog.lang_packs.length) "" ∧
    r.api_id = s1.catalog.api_id.getD ((h + 5) % s1.catalog.api_id.length) "" ∧
    r.api_hash = s1.catalog.api_hash.getD ((h + 6) % s1.catalog.api_hash.length) "" := by
  obtain ⟨flag, dev, hgen, hdev, hlc, hslc, hav, hlp, hai, hah, hm, hv⟩ :=
    random_device_info_ok hok
  refine ⟨?_, ?_, ?_, hash_to_value_getD hlc "", hash_to_value_getD hslc "",
    hash_to_value_getD hav "", hash_to_value_getD hlp "", hash_to_value_getD hai "",
    hash_to_value_getD hah ""⟩
  · intro α base off vs d hne
    rw [hash_to_value_ok hne, getD_of_lt vs _ d (Nat.mod_lt _ (List.length_pos.mpr hne))]
  · rw [hm, ← hash_to_value_getD hdev default]
  · rw [hv, ← hash_to_value_getD hdev default]

set_option maxRecDepth 4000 in
/-- Witness for C5: a concrete successful run on `fullJson` with base
hash 7, with the hypothesis discharged by evaluation. -/
theorem C5_selection_offsets_witness :
    random_device_info "Windows" fullJson initState 7 = .ok (fullRun.1, fullRun.2) ∧
    fullRun.1.device_model =
      (fullRun.2.device_list.getD (7 % fullRun.2.device_list.length) default).device_model ∧
    fullRun.1.lang_code =
      fullRun.2.catalog.lang_codes.getD ((7 + 1) % fullRun.2.catalog.lang_codes.length) "" ∧
    fullRun.1.api_hash =
      fullRun.2.catalog.api_hash.getD ((7 + 6) % fullRun.2.catalog.api_hash.length) "" := by
  have hok : random_device_info "Windows" fullJson initState 7 = .ok (fullRun.1, fullRun.2) := by
    decide
  obtain ⟨-, h1, -, h3, -, -, -, -, h8⟩ := C5_selection_offsets hok
  exact ⟨hok, h1, h3, h8⟩

/-- C6: selecting from an empty candidate list always fails with the
`ValueError` (never a silent default), and a platform whose
`device_models` or `system_versions` list is empty expands to an empty
`DeviceList`, so every request from a state with an empty cached list
fails at device selection instead of returning a record. -/
theorem C6_empty_pool_fails (platform : String) (j : CatalogJson) (s : GenState)
    (h : Nat) (models versions : List String)
    (hs : s.device_list = [])
    (hm : (load_data j).device_models = .flat models)
    (hv : (load_data j).system_versions = .flat versions)
    (hempty : models = [] ∨ versions = [])
    (hP : platform ≠ "iOS") :
    (∀ (β : Type) (hid : Nat),
      hash_to_value platform hid ([] : List β) =
        .error ("No values available for " ++ platform)) ∧
    buildDeviceList platform (load_data j) = .ok [] ∧
    random_device_info platform j s h =
      .error ("No values available for " ++ platform) := by
  have hkeys : (load_data j).device_models.iterKeys = models := by
    rw [hm]
    rfl
  have vkeys : (load_data j).system_versions.iterKeys = versions := by
    rw [hv]
    rfl
  have hbuild : buildDeviceList platform (load_data j) = .ok [] := by
    unfold buildDeviceList
    rw [if_neg hP]
    by_cases hmac : platform = "macOS"
    · rw [if_pos hmac, hkeys, vkeys]
      rcases hempty with he | he <;> subst he <;> simp
    · rw [if_neg hmac, hkeys, vkeys]
      rcases hempty with he | he <;> subst he <;> simp
  have hgen : generate platform j s =
      .ok ({ device_list := [], catalog := load_data j }, true) := by
    unfold generate
    rw [if_pos hs, hbuild]
  refine ⟨fun β hid => rfl, hbuild, ?_⟩
  unfold random_device_info
  rw [hgen]
  simp [Bind.bind, Except.bind, hash_to_value]

/-- A catalog whose `device_models` list is empty. -/
def emptyModelsJson : CatalogJson :=
  { device_models := some (.flat [])
    system_versions := some (.flat ["1.0"])
    lang_codes := some ["en"]
    app_versions := some ["1.0.0"] }

/-- Witness for C6: the concrete empty-models catalog fails at device
selection on Windows. -/
theorem C6_empty_pool_fails_witness :
    initState.device_list = [] ∧
    (load_data emptyModelsJson).device_models = .flat [] ∧
    (load_data emptyModelsJson).system_versions = .flat ["1.0"] ∧
    ("Windows" : String) ≠ "iOS" ∧
    buildDeviceList "Windows" (load_data emptyModelsJson) = .ok [] ∧
    random_device_info "Windows" emptyModelsJson initState 5 =
      .error "No values available for Windows" := by
  obtain ⟨-, h2, h3⟩ := C6_empty_pool_fails "Windows" emptyModelsJson initState 5 [] ["1.0"]
    rfl (by decide) (by decide) (Or.inl rfl) (by decide)
  exact ⟨rfl, by decide, by decide, by decide, h2, h3⟩

/-- C8: the catalog is loaded at most once per platform: a state with
a cached (non-empty) `device_list` makes `_generate` a no-op that does
not re-read the data source, any completed request leaves such a
state, and every subsequent request (even against changed file
contents) reuses the cached state unchanged. -/
theorem C8_load_once {platform : String} {j : CatalogJson} {s : GenState} {h : Nat}
    {r : DeviceInfo} {s1 : GenState}
    (hok : random_device_info platform j s h = .ok (r, s1)) :
    s1.device_list ≠ [] ∧
    generate platform j s1 = .ok (s1, false) ∧
    (∀ (j2 : CatalogJson) (h2 : Nat) (r2 : DeviceInfo) (s2 : GenState),
      random_device_info platform j2 s1 h2 = .ok (r2, s2) → s2 = s1) := by
  obtain ⟨flag, dev, hgen, hdev, -, -, -, -, -, -, -, -⟩ := random_device_info_ok hok
  have hne : s1.device_list ≠ [] := hash_to_value_ne_nil hdev
  refine ⟨hne, generate_cached hne, ?_⟩
  intro j2 h2 r2 s2 hok2
  obtain ⟨flag2, dev2, hgen2, -, -, -, -, -, -, -, -, -⟩ := random_device_info_ok hok2
  rw [generate_cached hne] at hgen2
  injection hgen2 with h'
  injection h' with ha hb
  exact ha.symm

set_option maxRecDepth 4000 in
/-- Witness for C8: the concrete run on `fullJson` leaves a cached
state on which `_generate` is a no-op. -/
theorem C8_load_once_witness :
    random_device_info "Windows" fullJson initState 7 = .ok (fullRun.1, fullRun.2) ∧
    fullRun.2.device_list ≠ [] ∧
    generate "Windows" fullJson fullRun.2 = .ok (fullRun.2, false) := by
  have hok : random_device_info "Windows" fullJson initState 7 = .ok (fullRun.1, fullRun.2) := by
    decide
  exact ⟨hok, (C8_load_once hok).1, (C8_load_once hok).2.1⟩

/-- C10: when the catalog omits the `api_id` (resp. `api_hash`) key,
the pool defaults to the one-element list `[""]`, so a generation that
succeeds from a fresh state returns the empty string in that field,
whatever the hash. -/
theorem C10_missing_api_defaults {platform : String} {j : CatalogJson} {s : GenState}
    {h : Nat} {r : DeviceInfo} {s1 : GenState}
    (hs : s.device_list = [])
    (hok : random_device_info platform j s h = .ok (r, s1)) :
    (j.api_id = none → (load_data j).api_id = [""] ∧ r.api_id = "") ∧
    (j.api_hash = none → (load_data j).api_hash = [""] ∧ r.api_hash = "") := by
  obtain ⟨flag, dev, hgen, -, -, -, -, -, hai, hah, -, -⟩ := random_device_info_ok hok
  rcases generate_ok hgen with ⟨-, -, hcat, -⟩ | ⟨hne, -, -⟩
  · constructor
    · intro hnone
      have hpool : (load_data j).api_id = [""] := by simp [load_data, hnone]
      have hmem := hash_to_value_mem hai
      rw [hcat, hpool] at hmem
      exact ⟨hpool, by simpa using hmem⟩
    · intro hnone
      have hpool : (load_data j).api_hash = [""] := by simp [load_data, hnone]
      have hmem := hash_to_value_mem hah
      rw [hcat, hpool] at hmem
      exact ⟨hpool, by simpa using hmem⟩
  · exact absurd hs hne

/-- A catalog with no `api_id`/`api_hash` keys (and no `lang_packs` or
`system_lang_codes` keys). -/
def noApiJson : CatalogJson :=
  { device_models := some (.flat ["M1"])
    system_versions := some (.flat ["10"])
    lang_codes := some ["en"]
    app_versions := some ["1.0"] }

/-- The record and state produced on `noApiJson` with base hash 9. -/
def noApiRun : DeviceInfo × GenState :=
  match random_device_info "Linux" noApiJson initState 9 with
  | .ok p => p
  | .error _ => (default, {})

/-- Witness for C10: a concrete catalog without `api_id`/`api_hash`
keys generates successfully and yields empty strings in both fields. -/
theorem C10_missing_api_defaults_witness :
    initState.device_list = [] ∧
    random_device_info "Linux" noApiJson initState 9 = .ok (noApiRun.1, noApiRun.2) ∧
    noApiJson.api_id = none ∧ noApiJson.api_hash = none ∧
    (load_data noApiJson).api_id = [""] ∧ noApiRun.1.api_id = "" ∧
    (load_data noApiJson).api_hash = [""] ∧ noApiRun.1.api_hash = "" := by
  have hok : random_device_info "Linux" noApiJson initState 9 =
      .ok (noApiRun.1, noApiRun.2) := by decide
  obtain ⟨h1, h2⟩ := C10_missing_api_defaults rfl hok
  obtain ⟨h1a, h1b⟩ := h1 rfl
  obtain ⟨h2a, h2b⟩ := h2 rfl
  exact ⟨rfl, hok, rfl, rfl, h1a, h1b, h2a, h2b⟩

set_option maxRecDepth 10000 in
/-- Counterexample to C1 as stated: on the spec's own fixture catalog
(whose `api_id` and `api_hash` pools are `[""]`), generation succeeds
for the identifier `"fixed"` yet the returned record's `api_id` is the
empty string. -/
theorem C1_counterexample :
    (random_device_info "Windows" fixtureJson initState fixedHash).map
      (fun rs => rs.1.api_id) = .ok "" ∧
    (get_random_device "Windows" fixtureJson initState (some (.pystr "fixed")) []).map
      Prod.fst =
      .ok ("\x7b\"device_model\": \"ModelA\", \"system_version\": \"2.0\","
        ++ " \"lang_code\": \"en\", \"system_lang_code\": \"en\","
        ++ " \"app_version\": \"1.0.0\", \"lang_pack\": \"default\","
        ++ " \"api_id\": \"\", \"api_hash\": \"\"\x7d") := by
  exact ⟨by decide, by decide⟩

/-- C1 amended: every field of a record generated from a fresh state
is drawn from its candidate pool, so each of the seven pool-driven
fields is non-empty whenever every candidate in its pool is non-empty
(which fails for the default `api_id`/`api_hash` pool `[""]`), and
`lang_pack` is unconditionally non-empty because its pool is filtered
to non-empty strings at load time. -/
theorem C1_fields_nonempty {platform : String} {j : CatalogJson} {s : GenState}
    {h : Nat} {r : DeviceInfo} {s1 : GenState}
    (hs : s.device_list = [])
    (hok : random_device_info platform j s h = .ok (r, s1))
    (hdev : ∀ d ∈ s1.device_list, d.device_model ≠ "" ∧ d.system_version ≠ "")
    (hlc : ∀ x ∈ s1.catalog.lang_codes, x ≠ "")
    (hslc : ∀ x ∈ s1.catalog.system_lang_codes, x ≠ "")
    (hav : ∀ x ∈ s1.catalog.app_versions, x ≠ "")
    (hai : ∀ x ∈ s1.catalog.api_id, x ≠ "")
    (hah : ∀ x ∈ s1.catalog.api_hash, x ≠ "") :
    r.device_model ≠ "" ∧ r.system_version ≠ "" ∧ r.lang_code ≠ "" ∧
    r.system_lang_code ≠ "" ∧ r.app_version ≠ "" ∧ r.lang_pack ≠ "" ∧
    r.api_id ≠ "" ∧ r.api_hash ≠ "" := by
  obtain ⟨flag, dev, hgen, hdev0, hlc0, hslc0, hav0, hlp0, hai0, hah0, hm, hv⟩ :=
    random_device_info_ok hok
  rcases generate_ok hgen with ⟨-, -, hcat, -⟩ | ⟨hne, -, -⟩
  · have hd := hdev dev (hash_to_value_mem hdev0)
    refine ⟨by rw [hm]; exact hd.1, by rw [hv]; exact hd.2,
      hlc _ (hash_to_value_mem hlc0), hslc _ (hash_to_value_mem hslc0),
      hav _ (hash_to_value_mem hav0), ?_,
      hai _ (hash_to_value_mem hai0), hah _ (hash_to_value_mem hah0)⟩
    have hmem := hash_to_value_mem hlp0
    rw [hcat] at hmem
    exact (load_data_lang_packs j).2 _ hmem
  · exact absurd hs hne

/-- Witness for C1 (amended): the concrete run on `fullJson`, whose
pools hold only non-empty candidates, yields eight non-empty fields. -/
theorem C1_fields_nonempty_witness :
    initState.device_list = [] ∧
    random_device_info "Windows" fullJson initState 7 = .ok (fullRun.1, fullRun.2) ∧
    (fullRun.1.device_model ≠ "" ∧ fullRun.1.system_version ≠ "" ∧
     fullRun.1.lang_code ≠ "" ∧ fullRun.1.system_lang_code ≠ "" ∧
     fullRun.1.app_version ≠ "" ∧ fullRun.1.lang_pack ≠ "" ∧
     fullRun.1.api_id ≠ "" ∧ fullRun.1.api_hash ≠ "") := by
  have hok : random_device_info "Windows" fullJson initState 7 = .ok (fullRun.1, fullRun.2) := by
    decide
  exact ⟨rfl, hok, C1_fields_nonempty rfl hok (by decide) (by decide) (by decide)
    (by decide) (by decide) (by decide)⟩

/-- The fixture catalog with a `lang_packs` key holding only an empty
string and a non-string entry. -/
def badLangPacksJson : CatalogJson :=
  { fixtureJson with lang_packs := some [.jstr "", .jother] }

/-- The record and state produced on `badLangPacksJson` with base
hash 3. -/
def badLangPacksRun : DeviceInfo × GenState :=
  match random_device_info "Windows" badLangPacksJson initState 3 with
  | .ok p => p
  | .error _ => (default, {})

/-- Counterexample to C7 as stated: a catalog whose `lang_packs` key
holds only empty or non-string entries is repaired to `["en-US"]`, not
to the documented `["default"]`, and the selected `lang_pack` is
`"en-US"`. -/
theorem C7_counterexample :
    (load_data badLangPacksJson).lang_packs = ["en-US"] ∧
    (random_device_info "Windows" badLangPacksJson initState 3).map
      (fun rs => rs.1.lang_pack) = .ok "en-US" ∧
    (random_device_info "Windows" badLangPacksJson initState 3).map
      (fun rs => rs.1.lang_pack) ≠ .ok "default" := by
  exact ⟨by decide, by decide, by decide⟩

/-- C7 amended: after loading, `lang_packs` holds only non-empty
string entries, and when the raw key's entries are all empty or
non-string the pool is replaced by `["en-US"]` (not `["default"]`), so
every record generated from a fresh state then carries lang_pack
`"en-US"`. -/
theorem C7_lang_pack_fallback (j : CatalogJson) (es : List JEntry) (platform : String)
    (s : GenState) (h : Nat) (r : DeviceInfo) (s1 : GenState)
    (hty : j.lang_packs = some es)
    (hbad : ∀ e ∈ es, ∀ t, e = .jstr t → t = "")
    (hs : s.device_list = [])
    (hok : random_device_info platform j s h = .ok (r, s1)) :
    (∀ x ∈ (load_data j).lang_packs, x ≠ "") ∧
    (load_data j).lang_packs = ["en-US"] ∧
    r.lang_pack = "en-US" := by
  have hfil : (load_data j).lang_packs = ["en-US"] := by
    have hnil : es.filterMap
        (fun e => match e with
          | .jstr t => if t = "" then none else some t
          | .jother => none) = [] := by
      rw [List.filterMap_eq_nil_iff]
      intro e he
      cases e with
      | jstr t =>
          have ht := hbad _ he t rfl
          simp [ht]
      | jother => rfl
    simp [load_data, hty, hnil]
  refine ⟨(load_data_lang_packs j).2, hfil, ?_⟩
  obtain ⟨flag, dev, hgen, -, -, -, -, hlp0, -, -, -, -⟩ := random_device_info_ok hok
  rcases generate_ok hgen with ⟨-, -, hcat, -⟩ | ⟨hne, -, -⟩
  · have hmem := hash_to_value_mem hlp0
    rw [hcat, hfil] at hmem
    simpa using hmem
  · exact absurd hs hne

/-- Witness for C7 (amended): the concrete bad-`lang_packs` catalog. -/
theorem C7_lang_pack_fallback_witness :
    badLangPacksJson.lang_packs = some [.jstr "", .jother] ∧
    initState.device_list = [] ∧
    random_device_info "Windows" badLangPacksJson initState 3 =
      .ok (badLangPacksRun.1, badLangPacksRun.2) ∧
    (load_data badLangPacksJson).lang_packs = ["en-US"] ∧
    badLangPacksRun.1.lang_pack = "en-US" := by
  have hok : random_device_info "Windows" badLangPacksJson initState 3 =
      .ok (badLangPacksRun.1, badLangPacksRun.2) := by decide
  obtain ⟨-, h2, h3⟩ := C7_lang_pack_fallback badLangPacksJson [.jstr "", .jother]
    "Windows" initState 3 badLangPacksRun.1 badLangPacksRun.2 rfl
    (by
      intro e he t het
      subst het
      rcases List.mem_cons.mp he with hh | hh
      · exact JEntry.jstr.inj hh
      · exact absurd (List.mem_singleton.mp hh) (by simp))
    rfl hok
  exact ⟨rfl, rfl, hok, h2, h3⟩

/-- C2: with an identifier present, generation is deterministic: the
entropy drawn for the `None` path is ignored (so two fresh processes
with the same catalog data produce byte-identical serialized output),
the hash of a given identifier string is always the same integer, and
a repeated call in the same process returns the same serialized bytes
and leaves the state unchanged. -/
theorem C2_determinism (platform : String) (j : CatalogJson) (s : GenState)
    (u : PyObj) (e1 e2 : List Nat) (out : String) (s1 : GenState) :
    get_random_device platform j s (some u) e1 =
      get_random_device platform j s (some u) e2 ∧
    str_to_hash_id (some u) e1 = str_to_hash_id (some u) e2 ∧
    (get_random_device platform j s (some u) e1 = .ok (out, s1) →
      get_random_device platform j s1 (some u) e2 = .ok (out, s1)) := by
  refine ⟨rfl, rfl, ?_⟩
  intro hok
  unfold get_random_device at hok ⊢
  by_cases hP : platform ∈ platformNames
  · rw [if_pos hP] at hok ⊢
    unfold random_device at hok ⊢
    obtain ⟨rs, hri, hout⟩ := except_bind_ok hok
    simp only [pure, Except.pure, Except.ok.injEq, Prod.mk.injEq] at hout
    obtain ⟨hout1, hout2⟩ := hout
    subst hout2
    obtain ⟨flag, dev, hgen, hdev, hlc, hslc, hav, hlp, hai, hah, hm, hv⟩ :=
      random_device_info_ok hri
    have hne : rs.2.device_list ≠ [] := hash_to_value_ne_nil hdev
    have he : str_to_hash_id (some u) e2 = str_to_hash_id (some u) e1 := rfl
    have h2 : random_device_info platform j rs.2 (str_to_hash_id (some u) e2) =
        .ok (rs.1, rs.2) := by
      unfold random_device_info
      rw [he, generate_cached hne]
      simp only [Bind.bind, Except.bind]
      rw [hdev, hlc, hslc, hav, hlp, hai, hah]
      simp only [Except.bind, pure, Except.pure, Except.ok.injEq, Prod.mk.injEq, and_true]
      rw [← hm, ← hv]
    show (random_device_info platform j rs.2 (str_to_hash_id (some u) e2) >>=
        fun r => pure (to_dict_dumps r.1, r.2)) = .ok (out, rs.2)
    rw [h2]
    simp only [Bind.bind, Except.bind, pure, Except.pure, hout1]
  · rw [if_neg hP] at hok
    exact absurd hok (by simp)

/-- The serialized output and state of a fresh `get_random_device`
call on the fixture catalog with identifier `"fixed"`. -/
def fixedRun : String × GenState :=
  match get_random_device "Windows" fixtureJson initState (some (.pystr "fixed")) [] with
  | .ok p => p
  | .error _ => ("", {})

set_option maxRecDepth 10000 in
/-- Witness for C2: the repeated concrete call on the fixture catalog
returns the same serialized output and state. -/
theorem C2_determinism_witness :
    get_random_device "Windows" fixtureJson initState (some (.pystr "fixed")) [] =
      .ok (fixedRun.1, fixedRun.2) ∧
    get_random_device "Windows" fixtureJson fixedRun.2 (some (.pystr "fixed")) [] =
      .ok (fixedRun.1, fixedRun.2) := by
  have hok : get_random_device "Windows" fixtureJson initState (some (.pystr "fixed")) [] =
      .ok (fixedRun.1, fixedRun.2) := by decide
  exact ⟨hok, (C2_determinism "Windows" fixtureJson initState (.pystr "fixed") [] []
    fixedRun.1 fixedRun.2).2.2 hok⟩

set_option maxRecDepth 10000 in
/-- C3: for every non-iOS platform the expanded `DeviceList` is the
direct cross product of the flat `device_models` and
`system_versions` lists in model-major order, and on the spec's
fixture catalog with identifier `"fixed"` the returned record carries
the (model, version) pair at index `hash("fixed") % 4` of the four
expanded pairs, with `lang_code` `"en"`, `app_version` `"1.0.0"` and
`lang_pack` `"default"`. -/
theorem C3_flat_cross_product (platform : String) (c : Catalog)
    (models versions : List String)
    (hP : platform ∈ ["Windows", "Linux", "macOS", "Android"])
    (hm : c.device_models = .flat models)
    (hv : c.system_versions = .flat versions) :
    (buildDeviceList platform c).map
        (List.map (fun d => (d.device_model, d.system_version))) =
      .ok (models.flatMap (fun m => versions.map (fun v => (m, v)))) ∧
    (random_device_info "Windows" fixtureJson initState fixedHash).map
        (fun rs => ((rs.1.device_model, rs.1.system_version),
          rs.1.lang_code, rs.1.app_version, rs.1.lang_pack)) =
      .ok ([("ModelA", "1.0"), ("ModelA", "2.0"), ("ModelB", "1.0"),
            ("ModelB", "2.0")].getD (fixedHash % 4) ("", ""),
           "en", "1.0.0", "default") := by
  constructor
  · have hcases : platform = "Windows" ∨ platform = "Linux" ∨ platform = "macOS" ∨
        platform = "Android" := by simpa using hP
    rcases hcases with h | h | h | h <;> subst h <;>
      simp [buildDeviceList, hm, hv, ModelsData.iterKeys, VersionsData.iterKeys,
        Except.map, List.map_flatMap, List.map_map, Function.comp_def, placeholderInfo]
  · decide

set_option maxRecDepth 4000 in
/-- Witness for C3: the cross-product statement instantiated on the
loaded fixture catalog. -/
theorem C3_flat_cross_product_witness :
    (("Windows" : String) ∈ ["Windows", "Linux", "macOS", "Android"]) ∧
    (load_data fixtureJson).device_models = .flat ["ModelA", "ModelB"] ∧
    (load_data fixtureJson).system_versions = .flat ["1.0", "2.0"] ∧
    (buildDeviceList "Windows" (load_data fixtureJson)).map
        (List.map (fun d => (d.device_model, d.system_version))) =
      .ok (["ModelA", "ModelB"].flatMap (fun m =>
        ["1.0", "2.0"].map (fun v => (m, v)))) := by
  refine ⟨by decide, by decide, by decide, ?_⟩
  exact (C3_flat_cross_product "Windows" (load_data fixtureJson) ["ModelA", "ModelB"]
    ["1.0", "2.0"] (by decide) (by decide) (by decide)).1

/-- `mapM` over `Except` with pointwise-successful body is the
successful `map`. -/
theorem mapM_ok {α β : Type} (f : α → Except String β) (g : α → β) :
    ∀ l : List α, (∀ a ∈ l, f a = .ok (g a)) → l.mapM f = .ok (l.map g) := by
  intro l
  induction l with
  | nil => intro h; rfl
  | cons a t ih =>
      intro h
      rw [List.mapM_cons, h a (List.mem_cons_self a t),
        ih (fun x hx => h x (List.mem_cons_of_mem a hx))]
      rfl

/-- One iOS suffix row succeeds with the version cross product when
`system_versions` is nested. -/
theorem iosSuffixRow_ok {c : Catalog}
    {vers : List (String × List (String × List String))}
    (hv : c.system_versions = .nested vers) (mi : String × List String)
    (suffix : String) :
    iosSuffixRow c mi suffix = .ok (vers.flatMap (fun mm => mm.2.map (fun mp =>
      placeholderInfo c "default"
        (pyStrip ((if mi.1 ≠ "SE" then "iPhone " ++ mi.1 else "iPhone SE") ++ suffix))
        (iosVersion mm.1 mp)))) := by
  unfold iosSuffixRow
  rw [hv]

/-- One iOS model group succeeds with the suffix × version rows when
`system_versions` is nested. -/
theorem iosModelGroup_ok {c : Catalog}
    {vers : List (String × List (String × List String))}
    (hv : c.system_versions = .nested vers) (mi : String × List String) :
    iosModelGroup c mi = .ok ((mi.2.map (fun suffix =>
      vers.flatMap (fun mm => mm.2.map (fun mp =>
        placeholderInfo c "default"
          (pyStrip ((if mi.1 ≠ "SE" then "iPhone " ++ mi.1 else "iPhone SE") ++ suffix))
          (iosVersion mm.1 mp))))).flatten) := by
  unfold iosModelGroup
  rw [mapM_ok _ _ _ (fun suffix _ => iosSuffixRow_ok hv mi suffix)]
  rfl

/-- The redundant special case in the iOS model-name synthesis:
`"iPhone {id}"` already renders `"SE"` as `"iPhone SE"`. -/
theorem iphone_base_eq (id : String) :
    (if id ≠ "SE" then "iPhone " ++ id else "iPhone SE") = "iPhone " ++ id := by
  by_cases h : id = "SE"
  · subst h
    rw [if_neg (fun hc => hc rfl)]
    decide
  · rw [if_pos h]

/-- The same redundancy, in the `if`-orientation produced by `simp`. -/
theorem iphone_base_eq2 (id : String) :
    (if id = "SE" then "iPhone SE" else "iPhone " ++ id) = "iPhone " ++ id := by
  by_cases h : id = "SE"
  · subst h
    rw [if_pos rfl]
    decide
  · rw [if_neg h]

set_option maxRecDepth 4000 in
/-- C4: the iOS expansion synthesizes each model name as
`("iPhone {id}" ++ suffix).strip()` (the `"SE"` identifier rendering
as `"iPhone SE"`), builds each version string as `"{major}.{minor}"`
when the patch list is empty and `"{major}.{minor}.{first patch}"`
otherwise, and produces the full (model × suffix) × (major × minor)
cross product; on the two-model fixture the `DeviceList` is exactly
`"iPhone SE"/"15.0"` and `"iPhone 12 Pro"/"15.0"`. -/
theorem C4_ios_expansion (c : Catalog)
    (models : List (String × List String))
    (vers : List (String × List (String × List String)))
    (hm : c.device_models = .nested models)
    (hv : c.system_versions = .nested vers) :
    (buildDeviceList "iOS" c).map
        (List.map (fun d => (d.device_model, d.system_version))) =
      .ok (models.flatMap (fun mi => mi.2.flatMap (fun suffix =>
        vers.flatMap (fun mm => mm.2.map (fun mp =>
          (pyStrip ("iPhone " ++ mi.1 ++ suffix),
            match mp.2 with
            | [] => mm.1 ++ "." ++ mp.1
            | p :: _ => mm.1 ++ "." ++ mp.1 ++ "." ++ p)))))) ∧
    (buildDeviceList "iOS" (load_data iosFixtureJson)).map
        (List.map (fun d => (d.device_model, d.system_version))) =
      .ok [("iPhone SE", "15.0"), ("iPhone 12 Pro", "15.0")] := by
  constructor
  · unfold buildDeviceList
    rw [if_pos rfl, hm]
    show (models.mapM (iosModelGroup c) >>= fun groups => pure groups.flatten).map _ = _
    rw [mapM_ok _ _ _ (fun mi _ => iosModelGroup_ok hv mi)]
    simp [Bind.bind, Except.bind, pure, Except.pure, Except.map, List.map_flatten,
      List.map_map, List.map_flatMap, Function.comp_def, placeholderInfo,
      iphone_base_eq, iphone_base_eq2, iosVersion, List.flatMap_def]
  · decide

/-- Witness for C4: the general iOS expansion statement instantiated
on the loaded iOS fixture catalog. -/
theorem C4_ios_expansion_witness :
    (load_data iosFixtureJson).device_models =
      .nested [("SE", [""]), ("12", [" Pro"])] ∧
    (load_data iosFixtureJson).system_versions =
      .nested [("15", [("0", [])])] ∧
    (buildDeviceList "iOS" (load_data iosFixtureJson)).map
        (List.map (fun d => (d.device_model, d.system_version))) =
      .ok [("iPhone SE", "15.0"), ("iPhone 12 Pro", "15.0")] := by
  refine ⟨by decide, by decide, ?_⟩
  exact (C4_ios_expansion (load_data iosFixtureJson)
    [("SE", [""]), ("12", [" Pro"])] [("15", [("0", [])])]
    (by decide) (by decide)).2

end DeviceGen
